import Mathlib

/-!
Shallow embedding of the attendance punch-clock logic of
`src/pages/AttendancePage.tsx` (the `AttendancePage` React component).

Modelling conventions:
- Timestamps (`punch_in_time`, `punch_out_time`, the current instant `now`)
  are milliseconds since the epoch, modelled as `Nat` (the source holds ISO
  strings and converts with `Date.getTime()`, which yields milliseconds).
- Calendar dates (`attendance_date`, `today`) are `yyyy-MM-dd` strings in the
  source, compared by the store with `gte`/`lte`; lexicographic order on such
  strings agrees with chronological order, so dates are modelled as `Nat`
  day numbers with the usual order.
- JavaScript floating-point arithmetic on hours is modelled exactly over `ℚ`.
- The Supabase record store is external to the repository; its query, insert
  and update primitives are modelled from the spec's external-interface
  contract (§6) where the source only calls them.
-/

/-- The `AttendanceRecord` row interface of `AttendancePage.tsx`
(`id`, `employee_id`, `attendance_date`, `punch_in_time`,
`punch_out_time : string | null`, `total_hours : number | null`,
`status : string | null`, `notes : string | null`).
`id` is modelled as `Nat` (store-assigned, only compared for equality). -/
structure AttendanceRecord where
  id : Nat
  employee_id : String
  attendance_date : Nat
  punch_in_time : Nat
  punch_out_time : Option Nat
  total_hours : Option ℚ
  status : Option String
  notes : Option String
deriving DecidableEq, Repr

/-- `hoursWorked = (now.getTime() - punchIn.getTime()) / (1000 * 60 * 60)`
from `handlePunchOut` (line 192). -/
def hoursWorkedAt (punchInTime now : Nat) : ℚ :=
  ((now : ℚ) - (punchInTime : ℚ)) / (1000 * 60 * 60)

/-- `status = hoursWorked >= 8 ? 'present' : hoursWorked >= 4 ? 'partial' : 'absent'`
from `handlePunchOut` (line 194). -/
def classifyStatus (hoursWorked : ℚ) : String :=
  if 8 ≤ hoursWorked then "present"
  else if 4 ≤ hoursWorked then "partial"
  else "absent"

/-- `parseFloat(hoursWorked.toFixed(2))` (line 200): rounding to two decimal
places, modelled as round-half-up (ties do not arise for the values of
interest, and for nonnegative inputs JavaScript `toFixed` rounds to the
nearest hundredth). -/
def round2 (q : ℚ) : ℚ :=
  ((⌊q * 100 + 1 / 2⌋ : ℤ) : ℚ) / 100

/-- Modelled from the spec: the external record store's update primitive
(§6, "patch `punchOutTime`, `totalHours`, `status` on a record identified by
its id"), as invoked by
`supabase.from('hr_attendance').update({...}).eq('id', todayRecord.id)`:
rows whose `id` matches receive the three patched fields, all other rows are
untouched. -/
def updateById (db : List AttendanceRecord) (id : Nat)
    (pout : Option Nat) (th : Option ℚ) (st : Option String) :
    List AttendanceRecord :=
  db.map fun r =>
    if r.id = id then
      { r with punch_out_time := pout, total_hours := th, status := st }
    else r

/-- `handlePunchOut` (lines 185-222): guard `if (!employee?.id || !todayRecord) return;`
then compute `hoursWorked`, classify `status`, and issue a single update of
`punch_out_time`, `total_hours`, `status` on the record with `todayRecord.id`.
`employeeId` is `employee?.id`; `todayRecord` the loaded record; `now` the
current instant; `db` the store contents. Returns the store contents after
the operation. -/
def handlePunchOut (employeeId : Option String)
    (todayRecord : Option AttendanceRecord) (now : Nat)
    (db : List AttendanceRecord) : List AttendanceRecord :=
  match employeeId, todayRecord with
  | some _, some rec =>
      let hoursWorked := hoursWorkedAt rec.punch_in_time now
      let status := classifyStatus hoursWorked
      updateById db rec.id (some now) (some (round2 hoursWorked)) (some status)
  | _, _ => db

/-- `isPunchedIn = todayRecord && !todayRecord.punch_out_time` (line 237):
true when a record is loaded and its `punch_out_time` is null. -/
def isPunchedIn (todayRecord : Option AttendanceRecord) : Bool :=
  match todayRecord with
  | none => false
  | some r => r.punch_out_time.isNone

/-- The punch-out user action as invocable from the page: the Punch Out
button carries `onClick={handlePunchOut}` and
`disabled={!isPunchedIn || punching}` (lines 322-325), so a click reaches
`handlePunchOut` only when `isPunchedIn` holds and no mutation is
outstanding; otherwise the click is impossible and the store is unchanged. -/
def punchOutClick (employeeId : Option String)
    (todayRecord : Option AttendanceRecord) (punching : Bool) (now : Nat)
    (db : List AttendanceRecord) : List AttendanceRecord :=
  if isPunchedIn todayRecord && !punching then
    handlePunchOut employeeId todayRecord now db
  else db

/-- The component state that `fetchAttendance` writes: `todayRecord`,
`attendanceHistory`, `monthlyHours` (lines 35-37). -/
structure PageState where
  todayRecord : Option AttendanceRecord
  attendanceHistory : List AttendanceRecord
  monthlyHours : ℚ
deriving DecidableEq, Repr

/-- `(monthData || []).reduce((sum, record) => sum + (record.total_hours || 0), 0)`
(lines 95-98): left fold over the month query's `total_hours` column,
null coalesced to 0. -/
def monthlySum (rows : List (Option ℚ)) : ℚ :=
  rows.foldl (fun sum th => sum + th.getD 0) 0

/-- Modelled from the spec: the external store's month range query (§6,
"fetch `totalHours` for all records for `employeeId` within
`[monthStart, monthEnd]`"), as invoked by
`.select('total_hours').eq('employee_id', ...).gte('attendance_date', monthStart).lte('attendance_date', monthEnd)`
(lines 86-91): the `total_hours` column of the rows matching the filter. -/
def monthQuery (db : List AttendanceRecord) (empId : String)
    (monthStart monthEnd : Nat) : List (Option ℚ) :=
  (db.filter fun r =>
    r.employee_id == empId && decide (monthStart ≤ r.attendance_date)
      && decide (r.attendance_date ≤ monthEnd)).map
    fun r => r.total_hours

/-- `fetchAttendance` (lines 54-111): three awaited queries in sequence, each
`set...` running as soon as its query succeeds; any error throws to the one
`catch`, which reports a destructive toast. Query results are passed in as
`Except` values (the store is external). Returns the state after the run and
whether the error toast was shown. -/
def fetchAttendance (s : PageState)
    (todayQ : Except String (Option AttendanceRecord))
    (historyQ : Except String (List AttendanceRecord))
    (monthQ : Except String (List (Option ℚ))) : PageState × Bool :=
  match todayQ with
  | .error _ => (s, true)
  | .ok todayData =>
    let s1 := { s with todayRecord := todayData }
    match historyQ with
    | .error _ => (s1, true)
    | .ok historyData =>
      let s2 := { s1 with attendanceHistory := historyData }
      match monthQ with
      | .error _ => (s2, true)
      | .ok monthData =>
        ({ s2 with monthlyHours := monthlySum monthData }, false)

/-- The toast shown by `handlePunchIn`: success (line 168), the distinct
"Already Punched In" outcome (line 157), or the generic error toast from the
`catch` block (line 175). -/
inductive ToastKind where
  | punchedIn
  | alreadyPunchedIn
  | genericError
deriving DecidableEq, Repr

/-- Whether the store already holds a row for `(empId, date)` — the
uniqueness key of `hr_attendance`. -/
def hasRecordFor (db : List AttendanceRecord) (empId : String)
    (date : Nat) : Bool :=
  db.any fun r => r.employee_id == empId && r.attendance_date == date

/-- Modelled from the spec: the external store's insert primitive (§6,
"create a record; must enforce uniqueness on `(employeeId, attendanceDate)`
and report a distinguishable 'duplicate' failure code on violation" — the
Postgres unique-violation code `'23505'` matched in `handlePunchIn`).
`storeFailure` injects any other store-side insert error; on any error no
row is created. On success the store assigns `freshId` and the unspecified
columns default to null. -/
def storeInsert (db : List AttendanceRecord) (freshId : Nat) (empId : String)
    (date pin : Nat) (st : String) (storeFailure : Option String) :
    List AttendanceRecord × Option String :=
  if hasRecordFor db empId date then (db, some "23505")
  else
    match storeFailure with
    | some code => (db, some code)
    | none =>
        (db ++ [{ id := freshId, employee_id := empId, attendance_date := date,
                  punch_in_time := pin, punch_out_time := none,
                  total_hours := none, status := some st, notes := none }],
         none)

/-- `handlePunchIn` (lines 139-183): guard `if (!employee?.id) return;`, then
`insert({ employee_id, attendance_date: today, punch_in_time: now, status: 'present' })`;
an error with `code === '23505'` yields the "Already Punched In" toast, any
other error is re-thrown to the `catch` and reported generically, success
yields the success toast. Returns the store contents after the operation and
the toast shown (none when the guard returned early). -/
def handlePunchIn (employeeId : Option String) (today now freshId : Nat)
    (storeFailure : Option String) (db : List AttendanceRecord) :
    List AttendanceRecord × Option ToastKind :=
  match employeeId with
  | none => (db, none)
  | some eid =>
    let res := storeInsert db freshId eid today now "present" storeFailure
    match res.2 with
    | some code =>
        if code = "23505" then (res.1, some ToastKind.alreadyPunchedIn)
        else (res.1, some ToastKind.genericError)
    | none => (res.1, some ToastKind.punchedIn)

/-- `getStatus` (lines 229-235). The source's third test is
`todayRecord.punch_in_time && !todayRecord.punch_out_time`; `punch_in_time`
is a non-nullable timestamp column (a nonempty string, hence truthy), so the
test reduces to `punch_out_time` being null. -/
def getStatus (todayRecord : Option AttendanceRecord) : String :=
  match todayRecord with
  | none => "absent"
  | some r =>
    if r.status = some "present" then "present"
    else if r.status = some "partial" then "partial"
    else if r.punch_out_time = none then "present"
    else "absent"

/-- `presentDays = attendanceHistory.filter(r => r.status === 'present').length`
(line 241). -/
def presentDays (history : List AttendanceRecord) : Nat :=
  (history.filter fun r => r.status == some "present").length

/-- `partialDays = attendanceHistory.filter(r => r.status === 'partial').length`
(line 242). -/
def partialDays (history : List AttendanceRecord) : Nat :=
  (history.filter fun r => r.status == some "partial").length

/-- The "Avg Hours/Day" stat (lines 276-282):
`attendanceHistory.length > 0 ? monthlyHours / Math.max(presentDays + partialDays, 1) : '--'`,
with `none` standing for the `'--'` placeholder. -/
def avgHoursPerDay (history : List AttendanceRecord)
    (monthlyHours : ℚ) : Option ℚ :=
  if 0 < history.length then
    some (monthlyHours / ((max (presentDays history + partialDays history) 1 : Nat) : ℚ))
  else none

/-- The record-level time invariant of the data model: `punch_out_time`,
when present, is strictly after `punch_in_time`. -/
def punchTimesOrdered (r : AttendanceRecord) : Bool :=
  match r.punch_out_time with
  | none => true
  | some t => decide (r.punch_in_time < t)

theorem foldl_add_getD (rows : List (Option ℚ)) (a : ℚ) :
    rows.foldl (fun sum th => sum + th.getD 0) a
      = a + (rows.map fun th => th.getD 0).sum := by
  induction rows generalizing a with
  | nil => simp
  | cons x xs ih => simp [ih, add_assoc]

theorem monthlySum_eq_map_sum (rows : List (Option ℚ)) :
    monthlySum rows = (rows.map fun th => th.getD 0).sum := by
  simp [monthlySum, foldl_add_getD]

/-- C1: for every punch-out of a loaded record, the stored status is
determined solely by the session hours worked (`now` minus `punchInTime`, in
hours): `present` when `hoursWorked >= 8`, `partial` when
`4 <= hoursWorked < 8`, and `absent` when `hoursWorked < 4`. -/
theorem punchOut_status_thresholds (eid : String) (rec : AttendanceRecord)
    (now : Nat) (db : List AttendanceRecord) :
    handlePunchOut (some eid) (some rec) now db
      = db.map fun r =>
          if r.id = rec.id then
            { r with punch_out_time := some now,
                     total_hours :=
                       some (round2 (hoursWorkedAt rec.punch_in_time now)),
                     status := some
                       (if 8 ≤ hoursWorkedAt rec.punch_in_time now then "present"
                        else if 4 ≤ hoursWorkedAt rec.punch_in_time now
                            ∧ hoursWorkedAt rec.punch_in_time now < 8 then "partial"
                        else "absent") }
          else r := by
  have hst : ∀ hw : ℚ, classifyStatus hw
      = (if 8 ≤ hw then "present"
         else if 4 ≤ hw ∧ hw < 8 then "partial"
         else "absent") := by
    intro hw
    unfold classifyStatus
    by_cases h8 : 8 ≤ hw
    · rw [if_pos h8, if_pos h8]
    · rw [if_neg h8, if_neg h8]
      by_cases h4 : 4 ≤ hw
      · rw [if_pos h4, if_pos ⟨h4, not_le.mp h8⟩]
      · rw [if_neg h4, if_neg (fun hc => h4 hc.1)]
  simp only [handlePunchOut, updateById, hst]

/-- C2: the punch-out action is effective only when a record with absent
`punch_out_time` is loaded as today's record; with no record loaded, or with
a record whose `punch_out_time` is already set (a second punch-out on a
closed record), it leaves the store unchanged. -/
theorem punchOut_noop_guard (eid : Option String)
    (tr : Option AttendanceRecord) (punching : Bool) (now : Nat)
    (db : List AttendanceRecord) :
    (tr = none → punchOutClick eid tr punching now db = db) ∧
    (∀ r t, tr = some r → r.punch_out_time = some t →
        punchOutClick eid tr punching now db = db) ∧
    (∀ r, tr = some r → r.punch_out_time = none → punching = false →
        punchOutClick eid tr punching now db
          = handlePunchOut eid tr now db) := by
  refine ⟨?_, ?_, ?_⟩
  · rintro rfl
    rfl
  · rintro r t rfl hpo
    simp [punchOutClick, isPunchedIn, hpo]
  · rintro r rfl hpo rfl
    simp [punchOutClick, isPunchedIn, hpo]

theorem punchOut_noop_guard_witness :
    punchOutClick (some "e")
        (some ⟨1, "e", 100, 900, some 1000, some 2, some "absent", none⟩)
        false 2000
        [⟨1, "e", 100, 900, some 1000, some 2, some "absent", none⟩]
      = [⟨1, "e", 100, 900, some 1000, some 2, some "absent", none⟩] :=
  (punchOut_noop_guard (some "e")
      (some ⟨1, "e", 100, 900, some 1000, some 2, some "absent", none⟩)
      false 2000
      [⟨1, "e", 100, 900, some 1000, some 2, some "absent", none⟩]).2.1
    ⟨1, "e", 100, 900, some 1000, some 2, some "absent", none⟩ 1000 rfl rfl

/-- C6: every punch-out writes, as a single update targeting the existing
record by its id, `punch_out_time = now`, `total_hours` equal to the elapsed
time between `punch_in_time` and `now` in hours rounded to two decimal
places, and the classified `status`; all other fields and all other records
are untouched. -/
theorem punchOut_write_fields (eid : String) (rec : AttendanceRecord)
    (now : Nat) (db : List AttendanceRecord) :
    handlePunchOut (some eid) (some rec) now db
      = db.map fun r =>
          if r.id = rec.id then
            { id := r.id, employee_id := r.employee_id,
              attendance_date := r.attendance_date,
              punch_in_time := r.punch_in_time,
              punch_out_time := some now,
              total_hours := some (round2
                (((now : ℚ) - (rec.punch_in_time : ℚ)) / (1000 * 60 * 60))),
              status := some (classifyStatus
                (((now : ℚ) - (rec.punch_in_time : ℚ)) / (1000 * 60 * 60))),
              notes := r.notes }
          else r := by
  unfold handlePunchOut updateById hoursWorkedAt
  rfl

/-- C3: when the store rejects the punch-in insert with the duplicate-key
code `'23505'`, the operation yields the distinct "Already Punched In"
outcome with the store unchanged (no new record, no generic failure); any
other insert error yields the generic failure outcome, also with no row
created. -/
theorem punchIn_error_classification (eid : String) (today now freshId : Nat)
    (storeFailure : Option String) (db : List AttendanceRecord) :
    ((storeInsert db freshId eid today now "present" storeFailure).2
        = some "23505" →
      handlePunchIn (some eid) today now freshId storeFailure db
        = (db, some ToastKind.alreadyPunchedIn)) ∧
    (∀ code,
      (storeInsert db freshId eid today now "present" storeFailure).2
          = some code →
      code ≠ "23505" →
      handlePunchIn (some eid) today now freshId storeFailure db
        = (db, some ToastKind.genericError)) := by
  by_cases hdup : hasRecordFor db eid today
  · constructor
    · intro _
      simp [handlePunchIn, storeInsert, hdup]
    · intro code hcode hne
      simp [storeInsert, hdup] at hcode
      exact absurd hcode.symm hne
  · cases hsf : storeFailure with
    | none =>
        constructor
        · intro h
          simp [storeInsert, hdup] at h
        · intro code hcode _
          simp [storeInsert, hdup] at hcode
    | some code₀ =>
        constructor
        · intro h
          simp [storeInsert, hdup] at h
          simp [handlePunchIn, storeInsert, hdup, h]
        · intro code hcode hne
          simp [storeInsert, hdup] at hcode
          subst hcode
          simp [handlePunchIn, storeInsert, hdup, if_neg hne]

theorem punchIn_error_classification_witness :
    handlePunchIn (some "e") 100 900 7 none
        [⟨1, "e", 100, 800, none, none, some "present", none⟩]
      = ([⟨1, "e", 100, 800, none, none, some "present", none⟩],
         some ToastKind.alreadyPunchedIn) :=
  (punchIn_error_classification "e" 100 900 7 none
      [⟨1, "e", 100, 800, none, none, some "present", none⟩]).1 (by decide)

/-- C8: on the success path (no existing record for `(employeeId, today)`,
no store failure), punch-in inserts exactly one new record whose
`punch_in_time` is the current instant and whose `status` is `'present'`,
with `total_hours` and `punch_out_time` absent. -/
theorem punchIn_insert_effect (eid : String) (today now freshId : Nat)
    (db : List AttendanceRecord)
    (hnodup : hasRecordFor db eid today = false) :
    handlePunchIn (some eid) today now freshId none db
      = (db ++ [{ id := freshId, employee_id := eid,
                  attendance_date := today, punch_in_time := now,
                  punch_out_time := none, total_hours := none,
                  status := some "present", notes := none }],
         some ToastKind.punchedIn) := by
  simp [handlePunchIn, storeInsert, hnodup]

theorem punchIn_insert_effect_witness :
    handlePunchIn (some "e") 100 900 7 none []
      = ([{ id := 7, employee_id := "e", attendance_date := 100,
            punch_in_time := 900, punch_out_time := none,
            total_hours := none, status := some "present", notes := none }],
         some ToastKind.punchedIn) :=
  punchIn_insert_effect "e" 100 900 7 [] (by decide)

/-- C4 counterexample: with empty prior state, a successful today query
followed by a failing history query reports the error but leaves the state
partially overwritten (todayRecord holds the new data), so the state does
not remain exactly what it was before the load began. -/
theorem fetch_partial_overwrite_cex :
    (fetchAttendance ⟨none, [], 0⟩
        (Except.ok (some ⟨1, "e", 100, 900, none, none, some "present", none⟩))
        (Except.error "boom") (Except.ok [])).2 = true
    ∧ (fetchAttendance ⟨none, [], 0⟩
        (Except.ok (some ⟨1, "e", 100, 900, none, none, some "present", none⟩))
        (Except.error "boom") (Except.ok [])).1
      ≠ (⟨none, [], 0⟩ : PageState) := by
  constructor
  · rfl
  · decide

/-- C4 amended: any query failure reports an error; outputs of queries that
failed or were never reached keep their prior values, while outputs of
queries that succeeded before the failure are overwritten with the newly
fetched data. Only a failure of the first query leaves the state exactly as
before the load; no output is ever overwritten with empty data because of a
failure. -/
theorem fetch_failure_prefix_overwrite (s : PageState)
    (todayQ : Except String (Option AttendanceRecord))
    (historyQ : Except String (List AttendanceRecord))
    (mQ : Except String (List (Option ℚ))) :
    (∀ e, todayQ = .error e →
        fetchAttendance s todayQ historyQ mQ = (s, true)) ∧
    (∀ d e, todayQ = .ok d → historyQ = .error e →
        fetchAttendance s todayQ historyQ mQ
          = ({ s with todayRecord := d }, true)) ∧
    (∀ d h e, todayQ = .ok d → historyQ = .ok h → mQ = .error e →
        fetchAttendance s todayQ historyQ mQ
          = ({ s with todayRecord := d, attendanceHistory := h }, true)) ∧
    (∀ d h m, todayQ = .ok d → historyQ = .ok h → mQ = .ok m →
        fetchAttendance s todayQ historyQ mQ
          = ({ todayRecord := d, attendanceHistory := h,
               monthlyHours := monthlySum m }, false)) := by
  refine ⟨?_, ?_, ?_, ?_⟩ <;> intros <;> subst_vars <;> rfl

theorem fetch_failure_prefix_overwrite_witness :
    fetchAttendance ⟨none, [], 0⟩
        (Except.ok (some ⟨1, "e", 100, 900, none, none, some "present", none⟩))
        (Except.error "boom") (Except.ok [])
      = (⟨some ⟨1, "e", 100, 900, none, none, some "present", none⟩, [], 0⟩,
         true) :=
  (fetch_failure_prefix_overwrite ⟨none, [], 0⟩
      (Except.ok (some ⟨1, "e", 100, 900, none, none, some "present", none⟩))
      (Except.error "boom") (Except.ok [])).2.1
    (some ⟨1, "e", 100, 900, none, none, some "present", none⟩) "boom" rfl rfl

/-- C5: `monthlyHours` equals the sum of `total_hours` (absent treated as 0)
over the employee's records whose `attendance_date` falls within the month
range, and the sum is invariant under any reordering of the underlying
rows. -/
theorem monthlyHours_sum_perm_invariant (db : List AttendanceRecord)
    (empId : String) (monthStart monthEnd : Nat) :
    monthlySum (monthQuery db empId monthStart monthEnd)
      = ((db.filter fun r =>
            r.employee_id == empId && decide (monthStart ≤ r.attendance_date)
              && decide (r.attendance_date ≤ monthEnd)).map
          fun r => r.total_hours.getD 0).sum
    ∧ ∀ db', db.Perm db' →
        monthlySum (monthQuery db' empId monthStart monthEnd)
          = monthlySum (monthQuery db empId monthStart monthEnd) := by
  constructor
  · rw [monthQuery, monthlySum_eq_map_sum, List.map_map]
    rfl
  · intro db' hperm
    rw [monthQuery, monthQuery, monthlySum_eq_map_sum, monthlySum_eq_map_sum,
      List.map_map, List.map_map]
    exact (List.Perm.sum_eq ((hperm.filter _).map _)).symm

theorem monthlyHours_sum_perm_invariant_witness :
    monthlySum (monthQuery
        [⟨2, "e", 101, 0, none, some 9, none, none⟩,
         ⟨1, "e", 100, 0, none, some 8, none, none⟩] "e" 100 130)
      = monthlySum (monthQuery
        [⟨1, "e", 100, 0, none, some 8, none, none⟩,
         ⟨2, "e", 101, 0, none, some 9, none, none⟩] "e" 100 130) :=
  (monthlyHours_sum_perm_invariant
      [⟨1, "e", 100, 0, none, some 8, none, none⟩,
       ⟨2, "e", 101, 0, none, some 9, none, none⟩] "e" 100 130).2
    [⟨2, "e", 101, 0, none, some 9, none, none⟩,
     ⟨1, "e", 100, 0, none, some 8, none, none⟩] (by decide)

/-- C7: the displayed status for today is `'absent'` when no record is
loaded; otherwise the stored status when it is `'present'` or `'partial'`;
otherwise `'present'` when `punch_out_time` is absent (the record's
`punch_in_time` is always set); otherwise `'absent'`. -/
theorem getStatus_derivation (tr : Option AttendanceRecord) :
    (tr = none → getStatus tr = "absent") ∧
    (∀ r, tr = some r → r.status = some "present" →
        getStatus tr = "present") ∧
    (∀ r, tr = some r → r.status = some "partial" →
        getStatus tr = "partial") ∧
    (∀ r, tr = some r → r.status ≠ some "present" →
        r.status ≠ some "partial" → r.punch_out_time = none →
        getStatus tr = "present") ∧
    (∀ r, tr = some r → r.status ≠ some "present" →
        r.status ≠ some "partial" → r.punch_out_time ≠ none →
        getStatus tr = "absent") := by
  refine ⟨?_, ?_, ?_, ?_, ?_⟩
  · rintro rfl
    rfl
  · rintro r rfl hs
    simp only [getStatus]
    rw [if_pos hs]
  · rintro r rfl hs
    simp only [getStatus]
    rw [hs, if_neg (by decide), if_pos rfl]
  · rintro r rfl hs1 hs2 hpo
    simp only [getStatus]
    rw [if_neg hs1, if_neg hs2, if_pos hpo]
  · rintro r rfl hs1 hs2 hpo
    simp only [getStatus]
    rw [if_neg hs1, if_neg hs2, if_neg hpo]

theorem getStatus_derivation_witness :
    getStatus (some ⟨1, "e", 100, 900, some 1000, some 2, some "partial", none⟩)
      = "partial" :=
  (getStatus_derivation
      (some ⟨1, "e", 100, 900, some 1000, some 2, some "partial", none⟩)).2.2.1
    ⟨1, "e", 100, 900, some 1000, some 2, some "partial", none⟩ rfl rfl

/-- C9: the invariant "`punch_out_time`, when present, is strictly after
`punch_in_time`" is preserved by both operations: punch-in leaves
`punch_out_time` absent on the inserted record, and punch-out stamps the
current instant `now`, which lies strictly after every stored
`punch_in_time` (the wall clock at punch-out is later than at every earlier
punch-in). -/
theorem punch_ops_preserve_time_order (eid : String)
    (rec : AttendanceRecord) (today now freshId : Nat)
    (storeFailure : Option String) (db : List AttendanceRecord)
    (hdb : db.all punchTimesOrdered = true)
    (hclock : db.all (fun r => decide (r.punch_in_time < now)) = true) :
    (handlePunchIn (some eid) today now freshId storeFailure db).1.all
        punchTimesOrdered = true
    ∧ (handlePunchOut (some eid) (some rec) now db).all
        punchTimesOrdered = true := by
  constructor
  · by_cases hdup : hasRecordFor db eid today
    · simpa [handlePunchIn, storeInsert, hdup] using hdb
    · cases storeFailure with
      | some code =>
          simp only [handlePunchIn, storeInsert, hdup, if_neg, Bool.false_eq_true,
            if_false]
          split <;> simpa using hdb
      | none =>
          simp only [handlePunchIn, storeInsert, hdup, Bool.false_eq_true,
            if_false]
          rw [List.all_append]
          simp [hdb, punchTimesOrdered]
  · rw [List.all_eq_true]
    intro r' hr'
    rw [List.all_eq_true] at hdb hclock
    simp only [handlePunchOut, updateById, List.mem_map] at hr'
    obtain ⟨r, hrdb, rfl⟩ := hr'
    by_cases hid : r.id = rec.id
    · rw [if_pos hid]
      simpa [punchTimesOrdered] using hclock r hrdb
    · rw [if_neg hid]
      exact hdb r hrdb

theorem punch_ops_preserve_time_order_witness :
    (handlePunchIn (some "e") 101 2000 7 none
        [⟨1, "e", 100, 900, some 1000, some 2, some "absent", none⟩]).1.all
        punchTimesOrdered = true
    ∧ (handlePunchOut (some "e")
        (some ⟨1, "e", 100, 900, some 1000, some 2, some "absent", none⟩) 2000
        [⟨1, "e", 100, 900, some 1000, some 2, some "absent", none⟩]).all
        punchTimesOrdered = true :=
  punch_ops_preserve_time_order "e"
    ⟨1, "e", 100, 900, some 1000, some 2, some "absent", none⟩ 101 2000 7 none
    [⟨1, "e", 100, 900, some 1000, some 2, some "absent", none⟩]
    (by decide) (by decide)

/-- C10: the "Avg Hours/Day" statistic divides `monthlyHours` by
`max (presentDays + partialDays) 1`, so the denominator is at least 1 and
never zero; when the 30-day history is empty the `'--'` placeholder (here
`none`) is shown instead of a quotient. -/
theorem avgHours_denominator_safe (history : List AttendanceRecord)
    (monthlyHours : ℚ) :
    1 ≤ max (presentDays history + partialDays history) 1 ∧
    (history = [] → avgHoursPerDay history monthlyHours = none) ∧
    (history ≠ [] →
      avgHoursPerDay history monthlyHours
        = some (monthlyHours
            / ((max (presentDays history + partialDays history) 1 : Nat) : ℚ))
      ∧ ((max (presentDays history + partialDays history) 1 : Nat) : ℚ)
          ≠ 0) := by
  refine ⟨le_max_right _ _, ?_, ?_⟩
  · rintro rfl
    rfl
  · intro hne
    refine ⟨?_, ?_⟩
    · rw [avgHoursPerDay, if_pos (List.length_pos.mpr hne)]
    · have hpos : 0 < max (presentDays history + partialDays history) 1 :=
        lt_of_lt_of_le Nat.zero_lt_one (le_max_right _ _)
      exact_mod_cast hpos.ne'

theorem avgHours_denominator_safe_witness :
    avgHoursPerDay [⟨1, "e", 100, 900, none, some 8, some "present", none⟩] 8
      = some (8 / ((max
          (presentDays [⟨1, "e", 100, 900, none, some 8, some "present", none⟩]
            + partialDays
              [⟨1, "e", 100, 900, none, some 8, some "present", none⟩]) 1
          : Nat) : ℚ))
    ∧ ((max
        (presentDays [⟨1, "e", 100, 900, none, some 8, some "present", none⟩]
          + partialDays
            [⟨1, "e", 100, 900, none, some 8, some "present", none⟩]) 1
        : Nat) : ℚ) ≠ 0 :=
  (avgHours_denominator_safe
      [⟨1, "e", 100, 900, none, some 8, some "present", none⟩] 8).2.2
    (by decide)
